import Mathlib

/-!
# Verification of the ETL module (`ETL.py`)

A shallow embedding of the three functions of `ETL.py` — `fetch_data`,
`parse_records` and `load_to_bigquery` — together with theorems settling the
specification's claims about them.

JSON values decoded by `response.json()` are modelled by `JValue`.  Python
dynamic behaviour is made explicit:

* `dictGet v k dflt` models `v.get(k, dflt)`: it succeeds only when `v` is a
  dict (an `AttributeError` is an `Except.error`);
* `pyIter` models `for x in v`: lists yield their elements, strings their
  characters, dicts their keys, and every other value raises `TypeError`
  (an `Except.error`);
* `pyTruthy` models Python truthiness as used by `while has_next_page` and
  `if cursor`.

An uncaught Python exception is modelled by `Except.error ()` (for
`parse_records`) or by a dedicated result constructor (for `fetch_data`).
-/

inductive JValue where
  | null : JValue
  | bool : Bool → JValue
  | num : Int → JValue
  | str : String → JValue
  | arr : List JValue → JValue
  | obj : List (String × JValue) → JValue

/-- `v.get(key, dflt)` on a decoded JSON value: only dicts have `.get`;
any other receiver raises `AttributeError` (modelled as `Except.error ()`).
A key present with value `null` returns `null`, not the default, exactly as
Python's `dict.get`. -/
def dictGet (v : JValue) (key : String) (dflt : JValue) : Except Unit JValue :=
  match v with
  | .obj fields => .ok ((fields.lookup key).getD dflt)
  | _ => .error ()

/-- `v.get(key, dflt)` on a value already known to be a dict (used by
`fetch_data` at lines 72-73, where line 51 has already established that the
response is a dict).  The non-dict branch is unreachable in context. -/
def jGetD (v : JValue) (key : String) (dflt : JValue) : JValue :=
  match v with
  | .obj fields => (fields.lookup key).getD dflt
  | _ => dflt

/-- `for x in v`: Python iteration over a decoded JSON value.  Lists yield
their elements, strings their one-character substrings, dicts their keys;
`null`, booleans and numbers raise `TypeError`. -/
def pyIter (v : JValue) : Except Unit (List JValue) :=
  match v with
  | .arr xs => .ok xs
  | .str s => .ok (s.toList.map (fun c => JValue.str (String.mk [c])))
  | .obj fields => .ok (fields.map (fun p => JValue.str p.1))
  | _ => .error ()

/-- Python truthiness of a decoded JSON value (`while has_next_page`,
`if cursor`). -/
def pyTruthy (v : JValue) : Bool :=
  match v with
  | .null => false
  | .bool b => b
  | .num n => n != 0
  | .str s => s != ""
  | .arr [] => false
  | .arr (_ :: _) => true
  | .obj [] => false
  | .obj (_ :: _) => true

/-- A flat row produced by `parse_records` (the dict built at lines
162-171).  Field values keep their dynamic `JValue` type, as in the source. -/
structure Record where
  campaign : JValue
  ad_name : JValue
  date : JValue
  cost : JValue
  impressions : JValue
  clicks : JValue
  conversions : JValue
  revenue : JValue

/-- Body of the innermost loop of `parse_records` (lines 160-175): build one
record dict from a metric.  Every `.get` raises exactly when `metric` is not
a dict; the surrounding `try/except ... continue` turns that into skipping
the metric, hence the `Option`. -/
def parseMetric (campaign_name ad_name metric : JValue) : Option Record :=
  (do
    let date ← dictGet metric "date" (.str "")
    let cost ← dictGet metric "cost" (.num 0)
    let impressions ← dictGet metric "impressions" (.num 0)
    let clicks ← dictGet metric "clicks" (.num 0)
    let conversions ← dictGet metric "conversions" (.num 0)
    let revenue ← dictGet metric "revenue" (.num 0)
    pure (Record.mk campaign_name ad_name date cost impressions clicks
      conversions revenue) : Except Unit Record).toOption

/-- `for metric in metrics` with the per-metric `try/except ... continue`:
malformed metrics are skipped, well-formed siblings are kept. -/
def parseMetricList (campaign_name ad_name : JValue) :
    List JValue → List Record
  | [] => []
  | m :: ms =>
    match parseMetric campaign_name ad_name m with
    | some r => r :: parseMetricList campaign_name ad_name ms
    | Option.none => parseMetricList campaign_name ad_name ms

/-- One iteration of `for ad in ads` (lines 152-175).  The `try` covers only
the two `.get` calls; `for metric in metrics` is outside every `try`, so a
non-iterable `metrics` value propagates (`Except.error`). -/
def parseAd (campaign_name ad : JValue) : Except Unit (List Record) :=
  match (do
      let ad_name ← dictGet ad "name" (.str "")
      let metrics ← dictGet ad "metrics" (.arr [])
      pure (ad_name, metrics) : Except Unit (JValue × JValue)) with
  | .error _ => .ok []
  | .ok (ad_name, metrics) => do
    let ms ← pyIter metrics
    pure (parseMetricList campaign_name ad_name ms)

/-- `for ad in ads`, accumulating records in order; an uncaught exception in
any iteration aborts the whole traversal (no partial result escapes). -/
def parseAdList (campaign_name : JValue) :
    List JValue → Except Unit (List Record)
  | [] => .ok []
  | ad :: ads => do
    let rs ← parseAd campaign_name ad
    let rest ← parseAdList campaign_name ads
    pure (rs ++ rest)

/-- One iteration of `for campaign in campaigns` (lines 144-175).  The `try`
covers only the two `.get` calls; `for ad in ads` is outside every `try`, so
a non-iterable `ads` value propagates. -/
def parseCampaign (campaign : JValue) : Except Unit (List Record) :=
  match (do
      let campaign_name ← dictGet campaign "name" (.str "")
      let ads ← dictGet campaign "ads" (.arr [])
      pure (campaign_name, ads) : Except Unit (JValue × JValue)) with
  | .error _ => .ok []
  | .ok (campaign_name, ads) => do
    let as ← pyIter ads
    parseAdList campaign_name as

/-- `for campaign in campaigns`, accumulating records in order. -/
def parseCampaignList : List JValue → Except Unit (List Record)
  | [] => .ok []
  | c :: cs => do
    let rs ← parseCampaign c
    let rest ← parseCampaignList cs
    pure (rs ++ rest)

/-- `response.get("data", {}).get("campaigns", [])` (line 139), inside its
`try`. -/
def campaignsValue (response : JValue) : Except Unit JValue := do
  let data ← dictGet response "data" (.obj [])
  dictGet data "campaigns" (.arr [])

/-- `parse_records` (lines 131-177).  `Except.error ()` models an exception
escaping the function; the `try` around line 139 maps an inaccessible
top-level campaign list to `[]`, but `for campaign in campaigns` itself is
outside every `try`. -/
def parse_records (response : JValue) : Except Unit (List Record) :=
  match campaignsValue response with
  | .error _ => .ok []
  | .ok campaigns => do
    let cs ← pyIter campaigns
    parseCampaignList cs

/-!
## The fetcher (`fetch_data`, lines 12-77)

The transport (`requests.get` + `raise_for_status` + `.json()`) is modelled
as a script: a list of `Attempt` outcomes consumed one per request, in
order.  `Attempt.err` is any exception raised inside the `try` at lines
41-44; `Attempt.ok j` is a decoded JSON body `j`.

The observable behaviour of one call is a `FetchResult` together with a
trace of `Event`s: each request issued (with the cursor parameter it
carried, if any), each `time.sleep`, and each successfully parsed page
(with its records and the truthiness of its `hasNextPage`).
-/

inductive Attempt where
  | err : Attempt
  | ok : JValue → Attempt

inductive Event where
  | request : Option JValue → Event
  | sleep : Nat → Event
  | page : List Record → Bool → Event

/-- `response_json.get("status")` at line 51: raises `AttributeError`
(`Option.none` here) when the body is not a dict — this line is outside
every `try`, so that exception escapes `fetch_data`.  Otherwise reports
whether `status == "SUCCESS"`. -/
def checkStatus (j : JValue) : Option Bool :=
  match j with
  | .obj fields =>
    match (fields.lookup "status").getD .null with
    | .str s => some (s == "SUCCESS")
    | _ => some false
  | _ => Option.none

/-- Outcome of the per-page retry loop (lines 40-61). -/
inductive RetryOutcome where
  | success : JValue → List Attempt → RetryOutcome
  | exhausted : List Attempt → RetryOutcome
  | raised : List Attempt → RetryOutcome
  | starved : RetryOutcome

/-- The `for attempt in range(max_retries)` loop of lines 40-58 with its
`else` clause (lines 59-61).  Arguments: `delay`, the cursor parameter sent
with every request of this page, the current 0-based `attempt` index, the
remaining attempt budget, and the remaining transport script.
`starved` is a model artifact: the script ran out while attempts remained. -/
def retryLoop (delay : Nat) (cp : Option JValue) :
    Nat → Nat → List Attempt → RetryOutcome × List Event
  | _, 0, rs => (.exhausted rs, [])
  | _, _ + 1, [] => (.starved, [])
  | attempt, n + 1, .err :: rs =>
    let r := retryLoop delay cp (attempt + 1) n rs
    (r.1, .request cp :: .sleep (delay * 2 ^ attempt) :: r.2)
  | attempt, n + 1, .ok j :: rs =>
    match checkStatus j with
    | Option.none => (.raised rs, [.request cp])
    | some true => (.success j rs, [.request cp])
    | some false =>
      let r := retryLoop delay cp (attempt + 1) n rs
      (r.1, .request cp :: .sleep (delay * 2 ^ attempt) :: r.2)

/-- Result of `fetch_data`: `ret v` is a normal `return` (`v = none` is
Python's `None`), `raised` an uncaught exception (line 51 on a non-dict
body), `starved` the model artifact of an exhausted transport script. -/
inductive FetchResult where
  | ret : Option (List Record) → FetchResult
  | raised : FetchResult
  | starved : FetchResult

/-- `if cursor: params["cursor"] = cursor` (lines 36-37). -/
def cursorParam (cursor : JValue) : Option JValue :=
  if pyTruthy cursor then some cursor else Option.none

/-- The `while has_next_page` loop of lines 28-77.  `fuel` bounds the number
of page iterations (the wrapper supplies more fuel than the script can
sustain, so `fuel` never runs out before the script does).  `cursor` is the
Python `cursor` variable (initially `None`), `acc` the `all_records`
accumulator. -/
def fetchLoop (max_retries delay : Nat) :
    Nat → JValue → List Record → List Attempt → FetchResult × List Event
  | 0, _, _, _ => (.starved, [])
  | fuel + 1, cursor, acc, rs =>
    match retryLoop delay (cursorParam cursor) 0 max_retries rs with
    | (.starved, evs) => (.starved, evs)
    | (.raised _, evs) => (.raised, evs)
    | (.exhausted _, evs) => (.ret Option.none, evs)
    | (.success j rest, evs) =>
      match parse_records j with
      | .error _ => (.ret Option.none, evs)
      | .ok records =>
        let hn := pyTruthy (jGetD j "hasNextPage" (.bool false))
        let cursor2 := jGetD j "nextCursor" .null
        if hn then
          let r := fetchLoop max_retries delay fuel cursor2 (acc ++ records) rest
          (r.1, evs ++ Event.page records true :: r.2)
        else
          (.ret (some (acc ++ records)), evs ++ [Event.page records false])

/-- `fetch_data` (lines 12-77), as a function of the retry/backoff
parameters and the transport script.  The defaults in the source are
`max_retries = 3`, `delay = 5`. -/
def fetch_data (max_retries delay : Nat) (responses : List Attempt) :
    FetchResult × List Event :=
  fetchLoop max_retries delay (responses.length + 1) .null [] responses

/-- Number of transport requests in a trace. -/
def requestCount : List Event → Nat
  | [] => 0
  | .request _ :: es => requestCount es + 1
  | _ :: es => requestCount es

/-- Number of `time.sleep` calls in a trace. -/
def sleepCount : List Event → Nat
  | [] => 0
  | .sleep _ :: es => sleepCount es + 1
  | _ :: es => sleepCount es

/-- Total seconds slept in a trace. -/
def sleepTotal : List Event → Nat
  | [] => 0
  | .sleep w :: es => w + sleepTotal es
  | _ :: es => sleepTotal es

/-- The pages recorded in a trace, in order: each successfully parsed page's
records together with the truthiness of its `hasNextPage`. -/
def pagesOf : List Event → List (List Record × Bool)
  | [] => []
  | .page records hn :: es => (records, hn) :: pagesOf es
  | .request _ :: es => pagesOf es
  | .sleep _ :: es => pagesOf es

/-- Concatenation of the records of a list of pages, in page order. -/
def pageRecords : List (List Record × Bool) → List Record
  | [] => []
  | p :: ps => p.1 ++ pageRecords ps

/-- An attempt outcome on which the retry loop retries: a transport
exception, or a dict body whose `status` is not `"SUCCESS"`. -/
def isRetryable : Attempt → Bool
  | .err => true
  | .ok j => checkStatus j == some false

/-- The exact event schedule of `n` consecutive failed attempts starting at
0-based attempt index `att`: each issues a request then sleeps
`delay * 2 ^ i` seconds. -/
def backoffEvents (cp : Option JValue) (delay : Nat) :
    Nat → Nat → List Event
  | _, 0 => []
  | att, n + 1 =>
    .request cp :: .sleep (delay * 2 ^ att) :: backoffEvents cp delay (att + 1) n

/-!
## The loader (`load_to_bigquery`, lines 80-128)

The BigQuery client is modelled as an oracle (`ClientSpec`) giving the
outcome of each of its operations; the calls actually issued are recorded
as `BQAction`s and the log lines as `LogEvent`s.  A Python exception
escaping the function is `Except.error`; the `except` clause at lines
126-128 logs every such exception with the table id and re-raises it
unmodified.
-/

/-- The data argument: a pandas DataFrame (only its column names matter to
this function) or a JSON list of rows. -/
inductive PyData where
  | df : List String → PyData
  | jsonRows : List JValue → PyData

/-- A Python exception value, as propagated by `load_to_bigquery`. -/
inductive PyExc where
  | valueError : String → PyExc
  | attributeError : String → PyExc
  | clientError : String → PyExc

/-- `str(e)` for the exceptions above. -/
def excMsg : PyExc → String
  | .valueError m => m
  | .attributeError m => m
  | .clientError m => m

/-- The job-config dict built at lines 95-100 / 108-113. -/
structure LoadJobConfig where
  schema : Option (List (String × String))
  source_format : Option String
  write_disposition : String
  create_disposition : String
  schema_update_options : List String

/-- A call made to the warehouse client. -/
inductive BQAction where
  | submitDataframe : String → LoadJobConfig → BQAction
  | submitJson : String → LoadJobConfig → BQAction
  | waitResult : String → BQAction

inductive LogEvent where
  | info : String → LogEvent
  | error : String → LogEvent

/-- Outcome of `load_job.result()` as scripted by the oracle: row count on
success, exception text on failure. -/
structure JobSpec where
  job_id : String
  outcome : Except String Nat

/-- Oracle for the two client entry points used by the source. -/
structure ClientSpec where
  submitDf : Except String JobSpec
  submitJson : Except String JobSpec

structure LoadResult where
  output_rows : Nat

/-- `data.columns` (line 92): raises `AttributeError` when `data` is not a
DataFrame. -/
def pyColumns : PyData → Except PyExc (List String)
  | .df cols => .ok cols
  | .jsonRows _ => .error (.attributeError "object has no attribute columns")

/-- `f"{dataset_id}.{table_name}_{formatted_date}"` (line 85). -/
def tableId (dataset_id table_name formatted_date : String) : String :=
  dataset_id ++ "." ++ table_name ++ "_" ++ formatted_date

/-- The error log line of line 127. -/
def failMsg (table_id : String) (e : PyExc) : String :=
  "BigQuery load job failed for table " ++ table_id ++ ": " ++ excMsg e

/-- The info log line of line 86. -/
def startMsg (table_id : String) : String :=
  "Loading data into BigQuery table: " ++ table_id

/-- The `if data_format == "df" / elif "json" / else raise ValueError`
dispatch of lines 89-120, up to and including the submission call; returns
the submitted job (or the exception raised) and the client calls made. -/
def submitPhase (client : ClientSpec) (data : PyData)
    (table_id data_format : String) :
    Except PyExc JobSpec × List BQAction :=
  if data_format = "df" then
    match pyColumns data with
    | .error e => (.error e, [])
    | .ok cols =>
      let config : LoadJobConfig :=
        LoadJobConfig.mk (some (cols.map (fun c => (c, "STRING")))) Option.none
          "WRITE_APPEND" "CREATE_IF_NEEDED"
          ["ALLOW_FIELD_ADDITION", "ALLOW_FIELD_RELAXATION"]
      match client.submitDf with
      | .error e => (.error (.clientError e), [.submitDataframe table_id config])
      | .ok job => (.ok job, [.submitDataframe table_id config])
  else if data_format = "json" then
    let config : LoadJobConfig :=
      LoadJobConfig.mk Option.none (some "NEWLINE_DELIMITED_JSON")
        "WRITE_APPEND" "CREATE_IF_NEEDED"
        ["ALLOW_FIELD_ADDITION", "ALLOW_FIELD_RELAXATION"]
    match client.submitJson with
    | .error e => (.error (.clientError e), [.submitJson table_id config])
    | .ok job => (.ok job, [.submitJson table_id config])
  else
    (.error (.valueError ("Unsupported data_format: " ++ data_format)), [])

/-- `load_to_bigquery` (lines 80-128): result, client calls made, and log
lines, in order. -/
def load_to_bigquery (client : ClientSpec) (data : PyData)
    (dataset_id table_name formatted_date data_format : String) :
    Except PyExc LoadResult × List BQAction × List LogEvent :=
  let table_id := tableId dataset_id table_name formatted_date
  match submitPhase client data table_id data_format with
  | (.error e, acts) =>
    (.error e, acts, [.info (startMsg table_id), .error (failMsg table_id e)])
  | (.ok job, acts) =>
    match job.outcome with
    | .error e =>
      (.error (.clientError e), acts ++ [.waitResult job.job_id],
        [.info (startMsg table_id),
         .error (failMsg table_id (.clientError e))])
    | .ok rows =>
      (.ok (LoadResult.mk rows), acts ++ [.waitResult job.job_id],
        [.info (startMsg table_id),
         .info ("BigQuery load job " ++ job.job_id ++ " succeeded: " ++
           toString rows ++ " rows")])

/-- Number of load-job submissions among the client calls: a measure of
whether the loader retries a load on its own. -/
def submitCount : List BQAction → Nat
  | [] => 0
  | .submitDataframe _ _ :: r => submitCount r + 1
  | .submitJson _ _ :: r => submitCount r + 1
  | .waitResult _ :: r => submitCount r

/-!
## Shape predicates and concrete fixtures

`parse_records` contains three `for` statements that sit outside every
`try` (lines 144, 152, 160 iterate values obtained inside the preceding
`try` blocks), so a non-iterable `campaigns`/`ads`/`metrics` value raises
`TypeError` out of the function.  The predicates below delimit the inputs
on which no such raise happens: every sub-collection value actually
iterated is iterable in Python's sense (`pyIter` succeeds).
-/

/-- `pyIter` succeeds on `v` (Python would iterate it without raising). -/
def iterOk (v : JValue) : Bool :=
  match pyIter v with
  | .ok _ => true
  | .error _ => false

/-- The `metrics` value of an ad dict is iterable; non-dict ads are skipped
by the `except` and need no condition. -/
def adShapeOk : JValue → Bool
  | .obj fields => iterOk ((fields.lookup "metrics").getD (.arr []))
  | _ => true

/-- The `ads` value of a campaign dict is iterable and every ad in it is
shape-ok; non-dict campaigns are skipped by the `except`. -/
def campaignShapeOk : JValue → Bool
  | .obj fields =>
    match pyIter ((fields.lookup "ads").getD (.arr [])) with
    | .ok ads => ads.all adShapeOk
    | .error _ => false
  | _ => true

/-- Either the top-level campaign list is inaccessible (handled by the
`try` at line 138) or it is iterable and all its campaigns are shape-ok. -/
def responseShapeOk (response : JValue) : Bool :=
  match campaignsValue response with
  | .error _ => true
  | .ok campaigns =>
    match pyIter campaigns with
    | .ok cs => cs.all campaignShapeOk
    | .error _ => false

/-- The worked example page of the specification (section 8). -/
def examplePage : JValue :=
  .obj [("status", .str "SUCCESS"),
        ("data", .obj [("campaigns", .arr [.obj [("name", .str "C1"),
          ("ads", .arr [.obj [("name", .str "A1"),
            ("metrics", .arr [.obj [("date", .str "2025-06-01"),
              ("cost", .num 10), ("impressions", .num 100),
              ("clicks", .num 5), ("conversions", .num 1),
              ("revenue", .num 20)]])]])]])]),
        ("hasNextPage", .bool false)]

/-- The record the worked example must produce. -/
def exampleRecord : Record :=
  Record.mk (.str "C1") (.str "A1") (.str "2025-06-01") (.num 10) (.num 100)
    (.num 5) (.num 1) (.num 20)

/-- A page whose single metric dict is empty: every scalar field must
default. -/
def defaultsPage : JValue :=
  .obj [("data", .obj [("campaigns", .arr [.obj [("ads", .arr
    [.obj [("metrics", .arr [.obj []])]])]])])]

/-- A response whose campaign has a non-iterable `ads` value (`ads: 1`):
`for ad in ads` raises `TypeError` outside every `try`. -/
def badAdsResponse : JValue :=
  .obj [("data", .obj [("campaigns", .arr
    [.obj [("name", .str "C"), ("ads", .num 1)]])])]

/-- A shape-ok response with one well-formed ad and one malformed (non-dict)
ad sibling. -/
def mixedResponse : JValue :=
  .obj [("data", .obj [("campaigns", .arr [.obj [("name", .str "C"),
    ("ads", .arr [.num 3, .obj [("name", .str "A"),
      ("metrics", .arr [.obj []])]])]])])]

/-- A protocol-violating page: `status = SUCCESS`, `hasNextPage = true`,
but no `nextCursor` field at all. -/
def noCursorPage : JValue :=
  .obj [("status", .str "SUCCESS"), ("hasNextPage", .bool true)]

/-- A final page: `status = SUCCESS`, no `hasNextPage` field (defaults to
`False` via `.get("hasNextPage", False)`). -/
def finalPage : JValue :=
  .obj [("status", .str "SUCCESS")]

/-- A still-processing response: `status = PENDING`. -/
def pendingPage : JValue :=
  .obj [("status", .str "PENDING")]

/-- A `SUCCESS` page with `hasNextPage = true` and cursor `"c2"`, empty
data. -/
def nextPage : JValue :=
  .obj [("status", .str "SUCCESS"), ("hasNextPage", .bool true),
        ("nextCursor", .str "c2")]

/-- A client oracle whose JSON submission fails with a quota error. -/
def quotaClient : ClientSpec :=
  ClientSpec.mk (.error "boom") (.error "quota")

/-!
## Theorems

Helper lemmas come first, then one theorem per claim (with its witness or
counterexample where required).
-/

theorem except_bind_ok {ε : Type u} {α β : Type v} (a : α)
    (f : α → Except ε β) : ((Except.ok a : Except ε α) >>= f) = f a := rfl

theorem except_bind_error {ε : Type u} {α β : Type v} (e : ε)
    (f : α → Except ε β) :
    ((Except.error e : Except ε α) >>= f) = Except.error e := rfl

theorem parseAd_total (campaign_name ad : JValue) (h : adShapeOk ad = true) :
    ∃ l, parseAd campaign_name ad = .ok l := by
  cases ad with
  | obj fields =>
    cases hi : pyIter ((fields.lookup "metrics").getD (.arr [])) with
    | ok ms =>
      exact ⟨parseMetricList campaign_name
        ((fields.lookup "name").getD (.str "")) ms,
        by simp [parseAd, dictGet, hi, except_bind_ok]⟩
    | error e => simp [adShapeOk, iterOk, hi] at h
  | null => exact ⟨[], rfl⟩
  | bool b => exact ⟨[], rfl⟩
  | num n => exact ⟨[], rfl⟩
  | str s => exact ⟨[], rfl⟩
  | arr xs => exact ⟨[], rfl⟩

theorem parseAdList_total (campaign_name : JValue) (ads : List JValue)
    (h : ads.all adShapeOk = true) :
    ∃ l, parseAdList campaign_name ads = .ok l := by
  induction ads with
  | nil => exact ⟨[], rfl⟩
  | cons a as ih =>
    rw [List.all_cons, Bool.and_eq_true] at h
    obtain ⟨l1, h1⟩ := parseAd_total campaign_name a h.1
    obtain ⟨l2, h2⟩ := ih h.2
    exact ⟨l1 ++ l2, by simp [parseAdList, h1, h2, except_bind_ok]⟩

theorem parseCampaign_total (c : JValue) (h : campaignShapeOk c = true) :
    ∃ l, parseCampaign c = .ok l := by
  cases c with
  | obj fields =>
    cases hi : pyIter ((fields.lookup "ads").getD (.arr [])) with
    | ok ads =>
      simp only [campaignShapeOk, hi] at h
      obtain ⟨l, hl⟩ := parseAdList_total ((fields.lookup "name").getD (.str "")) ads h
      exact ⟨l, by simp [parseCampaign, dictGet, hi, hl, except_bind_ok]⟩
    | error e => simp [campaignShapeOk, hi] at h
  | null => exact ⟨[], rfl⟩
  | bool b => exact ⟨[], rfl⟩
  | num n => exact ⟨[], rfl⟩
  | str s => exact ⟨[], rfl⟩
  | arr xs => exact ⟨[], rfl⟩

theorem parseCampaignList_total (cs : List JValue)
    (h : cs.all campaignShapeOk = true) :
    ∃ l, parseCampaignList cs = .ok l := by
  induction cs with
  | nil => exact ⟨[], rfl⟩
  | cons c cs ih =>
    rw [List.all_cons, Bool.and_eq_true] at h
    obtain ⟨l1, h1⟩ := parseCampaign_total c h.1
    obtain ⟨l2, h2⟩ := ih h.2
    exact ⟨l1 ++ l2, by simp [parseCampaignList, h1, h2, except_bind_ok]⟩

theorem parseCampaignList_skip (c : JValue) (cs : List JValue)
    (h : parseCampaign c = .ok []) :
    parseCampaignList (c :: cs) = parseCampaignList cs := by
  cases hm : parseCampaignList cs <;> simp [parseCampaignList, h, hm, except_bind_ok, except_bind_error]

theorem parseAdList_skip (campaign_name a : JValue) (as : List JValue)
    (h : parseAd campaign_name a = .ok []) :
    parseAdList campaign_name (a :: as) = parseAdList campaign_name as := by
  cases hm : parseAdList campaign_name as <;> simp [parseAdList, h, hm, except_bind_ok, except_bind_error]

/-- C5 counterexample: the claim says `parse_records` never raises, but on a
campaign whose `ads` value is the number `1` the `for ad in ads` statement
(line 152, outside every `try`) raises `TypeError` out of the function,
modelled as `Except.error ()`. -/
theorem C5_counterexample_parse_raises :
    parse_records badAdsResponse = .error () := rfl

/-- C5 (amended): flattening is total on every payload in which each
`campaigns`/`ads`/`metrics` value actually iterated is iterable; a
malformed (non-dict) campaign, ad or metric is skipped at its own nesting
level while siblings still yield records; and when the top-level campaign
list is inaccessible the function returns `[]` rather than failing. -/
theorem C5_flatten_contained :
    (∀ response : JValue, responseShapeOk response = true →
      ∃ l, parse_records response = .ok l) ∧
    (∀ (c : JValue) (cs : List JValue), (∀ fields, c ≠ .obj fields) →
      parseCampaignList (c :: cs) = parseCampaignList cs) ∧
    (∀ (campaign_name a : JValue) (as : List JValue),
      (∀ fields, a ≠ .obj fields) →
      parseAdList campaign_name (a :: as) = parseAdList campaign_name as) ∧
    (∀ (campaign_name ad_name m : JValue), (∀ fields, m ≠ .obj fields) →
      parseMetric campaign_name ad_name m = Option.none) ∧
    (∀ response : JValue, campaignsValue response = .error () →
      parse_records response = .ok []) := by
  refine ⟨?_, ?_, ?_, ?_, ?_⟩
  · intro response h
    cases hc : campaignsValue response with
    | error e => exact ⟨[], by simp [parse_records, hc]⟩
    | ok campaigns =>
      cases hi : pyIter campaigns with
      | error e => simp [responseShapeOk, hc, hi] at h
      | ok cs =>
        simp only [responseShapeOk, hc, hi] at h
        obtain ⟨l, hl⟩ := parseCampaignList_total cs h
        exact ⟨l, by simp [parse_records, hc, hi, hl, except_bind_ok]⟩
  · intro c cs h
    apply parseCampaignList_skip
    cases c with
    | obj fields => exact absurd rfl (h fields)
    | null => rfl
    | bool b => rfl
    | num n => rfl
    | str s => rfl
    | arr xs => rfl
  · intro campaign_name a as h
    apply parseAdList_skip
    cases a with
    | obj fields => exact absurd rfl (h fields)
    | null => rfl
    | bool b => rfl
    | num n => rfl
    | str s => rfl
    | arr xs => rfl
  · intro campaign_name ad_name m h
    cases m with
    | obj fields => exact absurd rfl (h fields)
    | null => rfl
    | bool b => rfl
    | num n => rfl
    | str s => rfl
    | arr xs => rfl
  · intro response h
    simp [parse_records, h]

/-- C5 witness: the amended theorem applied at concrete inputs — a shape-ok
page containing one malformed (non-dict) ad next to a well-formed one
flattens without raising, and a non-dict response body yields `[]`. -/
theorem C5_flatten_contained_witness :
    (∃ l, parse_records mixedResponse = .ok l) ∧
    parse_records (.arr []) = .ok [] :=
  ⟨C5_flatten_contained.1 mixedResponse rfl,
   C5_flatten_contained.2.2.2.2 (.arr []) rfl⟩

/-- C8: every scalar field missing from a metric dict defaults — `date` to
the empty string and the five numeric fields to zero (`campaign` and
`ad_name` likewise default to the empty string at their own levels, as the
`defaultsPage` conjunct shows) — and on the specification's worked example
`fetch_data` returns exactly the worked-example record. -/
theorem C8_metric_defaults :
    (∀ (campaign_name ad_name : JValue) (fields : List (String × JValue)),
      ∃ r, parseMetric campaign_name ad_name (.obj fields) = some r ∧
        r.campaign = campaign_name ∧ r.ad_name = ad_name ∧
        (fields.lookup "date" = Option.none → r.date = .str "") ∧
        (fields.lookup "cost" = Option.none → r.cost = .num 0) ∧
        (fields.lookup "impressions" = Option.none → r.impressions = .num 0) ∧
        (fields.lookup "clicks" = Option.none → r.clicks = .num 0) ∧
        (fields.lookup "conversions" = Option.none → r.conversions = .num 0) ∧
        (fields.lookup "revenue" = Option.none → r.revenue = .num 0)) ∧
    parse_records defaultsPage =
      .ok [Record.mk (.str "") (.str "") (.str "") (.num 0) (.num 0) (.num 0)
        (.num 0) (.num 0)] ∧
    fetch_data 3 5 [.ok examplePage] =
      (.ret (some [exampleRecord]),
       [.request Option.none, .page [exampleRecord] false]) := by
  refine ⟨?_, rfl, rfl⟩
  intro campaign_name ad_name fields
  refine ⟨Record.mk campaign_name ad_name
    ((fields.lookup "date").getD (.str ""))
    ((fields.lookup "cost").getD (.num 0))
    ((fields.lookup "impressions").getD (.num 0))
    ((fields.lookup "clicks").getD (.num 0))
    ((fields.lookup "conversions").getD (.num 0))
    ((fields.lookup "revenue").getD (.num 0)),
    rfl, rfl, rfl, ?_, ?_, ?_, ?_, ?_, ?_⟩ <;>
  · intro h
    simp [h]

/-- C8 witness: the defaults theorem applied at an empty metric dict. -/
theorem C8_metric_defaults_witness :
    ∃ r, parseMetric (.str "cw") (.str "aw") (.obj []) = some r ∧
      r.campaign = .str "cw" ∧ r.ad_name = .str "aw" ∧
      (([] : List (String × JValue)).lookup "date" = Option.none →
        r.date = .str "") ∧
      (([] : List (String × JValue)).lookup "cost" = Option.none →
        r.cost = .num 0) ∧
      (([] : List (String × JValue)).lookup "impressions" = Option.none →
        r.impressions = .num 0) ∧
      (([] : List (String × JValue)).lookup "clicks" = Option.none →
        r.clicks = .num 0) ∧
      (([] : List (String × JValue)).lookup "conversions" = Option.none →
        r.conversions = .num 0) ∧
      (([] : List (String × JValue)).lookup "revenue" = Option.none →
        r.revenue = .num 0) :=
  C8_metric_defaults.1 (.str "cw") (.str "aw") []

theorem retryLoop_backoff (delay : Nat) (cp : Option JValue)
    (fails : List Attempt) :
    ∀ (m att : Nat) (rest : List Attempt),
      (∀ a ∈ fails, isRetryable a = true) →
      retryLoop delay cp att (fails.length + m) (fails ++ rest) =
        ((retryLoop delay cp (att + fails.length) m rest).1,
         backoffEvents cp delay att fails.length ++
           (retryLoop delay cp (att + fails.length) m rest).2) := by
  induction fails with
  | nil =>
    intro m att rest _
    simp [backoffEvents]
  | cons a fs ih =>
    intro m att rest hall
    have ha : isRetryable a = true := hall a (List.mem_cons_self a fs)
    have hfs : ∀ x ∈ fs, isRetryable x = true :=
      fun x hx => hall x (List.mem_cons_of_mem a hx)
    have hlen : (a :: fs).length + m = (fs.length + m) + 1 := by
      simp [List.length_cons]
      omega
    rw [hlen]
    have harith : att + 1 + fs.length = att + (a :: fs).length := by
      simp [List.length_cons]
      omega
    cases a with
    | err =>
      simp only [List.cons_append, retryLoop, List.append_eq]
      rw [ih m (att + 1) rest hfs]
      rw [harith] at *
      simp [backoffEvents, List.length_cons]
    | ok j =>
      simp only [isRetryable, beq_iff_eq] at ha
      simp only [List.cons_append, retryLoop, ha, List.append_eq]
      rw [ih m (att + 1) rest hfs]
      rw [harith] at *
      simp [backoffEvents, List.length_cons]

theorem retryLoop_exhausted (delay : Nat) (cp : Option JValue)
    (fails rest : List Attempt) (att : Nat)
    (hall : ∀ a ∈ fails, isRetryable a = true) :
    retryLoop delay cp att fails.length (fails ++ rest) =
      (.exhausted rest, backoffEvents cp delay att fails.length) := by
  have h := retryLoop_backoff delay cp fails 0 att rest hall
  simpa [retryLoop] using h

theorem requestCount_backoffEvents (cp : Option JValue) (delay : Nat) :
    ∀ (n att : Nat), requestCount (backoffEvents cp delay att n) = n := by
  intro n
  induction n with
  | zero => intro att; rfl
  | succ n ih => intro att; simp [backoffEvents, requestCount, ih (att + 1)]

theorem sleepCount_backoffEvents (cp : Option JValue) (delay : Nat) :
    ∀ (n att : Nat), sleepCount (backoffEvents cp delay att n) = n := by
  intro n
  induction n with
  | zero => intro att; rfl
  | succ n ih => intro att; simp [backoffEvents, sleepCount, ih (att + 1)]

theorem sleepTotal_backoffEvents (cp : Option JValue) (delay : Nat) :
    ∀ (n att : Nat),
      sleepTotal (backoffEvents cp delay att n) =
        delay * 2 ^ att * (2 ^ n - 1) := by
  intro n
  induction n with
  | zero => intro att; simp [backoffEvents, sleepTotal]
  | succ n ih =>
    intro att
    obtain ⟨k, hk⟩ : ∃ k, 2 ^ n = k + 1 :=
      ⟨2 ^ n - 1, by have := pow_pos (by omega : (0 : Nat) < 2) n; omega⟩
    simp only [backoffEvents, sleepTotal, ih (att + 1), pow_succ, hk]
    have e1 : k + 1 - 1 = k := by omega
    have e2 : (k + 1) * 2 - 1 = 2 * k + 1 := by omega
    rw [e1, e2]
    ring

theorem fetchLoop_pageFail (max_retries delay fuel : Nat) (cursor : JValue)
    (acc : List Record) (fails rest : List Attempt)
    (hlen : fails.length = max_retries)
    (hall : ∀ a ∈ fails, isRetryable a = true) :
    fetchLoop max_retries delay (fuel + 1) cursor acc (fails ++ rest) =
      (.ret Option.none,
       backoffEvents (cursorParam cursor) delay 0 max_retries) := by
  subst hlen
  simp only [fetchLoop]
  rw [retryLoop_exhausted delay (cursorParam cursor) fails rest 0 hall]

theorem fetch_data_allFail (max_retries delay : Nat) (fails rest : List Attempt)
    (hlen : fails.length = max_retries)
    (hall : ∀ a ∈ fails, isRetryable a = true) :
    fetch_data max_retries delay (fails ++ rest) =
      (.ret Option.none, backoffEvents Option.none delay 0 max_retries) := by
  have h := fetchLoop_pageFail max_retries delay (fails.length + rest.length)
    .null [] fails rest hlen hall
  unfold fetch_data
  have hfuel : (fails ++ rest).length + 1 = fails.length + rest.length + 1 := by
    simp
  rw [hfuel]
  simpa [cursorParam, pyTruthy] using h

/-- C3: when all `max_retries` attempts for a page fail (transport error or
`status ≠ SUCCESS`), `fetch_data` returns `None` after exactly `max_retries`
requests for that page; and (second conjunct) after a successful first page
the counter restarts, so a failing second page again gets exactly
`max_retries` requests — the attempt budget is per page. -/
theorem C3_retries_exhausted :
    (∀ (max_retries delay : Nat) (fails rest : List Attempt),
        fails.length = max_retries →
        (∀ a ∈ fails, isRetryable a = true) →
        fetch_data max_retries delay (fails ++ rest) =
          (.ret Option.none, backoffEvents Option.none delay 0 max_retries) ∧
        requestCount (fetch_data max_retries delay (fails ++ rest)).2 =
          max_retries) ∧
    (∀ (max_retries delay : Nat) (fails rest : List Attempt),
        1 ≤ max_retries →
        fails.length = max_retries →
        (∀ a ∈ fails, isRetryable a = true) →
        fetch_data max_retries delay (.ok nextPage :: (fails ++ rest)) =
          (.ret Option.none,
           .request Option.none :: .page [] true ::
             backoffEvents (some (.str "c2")) delay 0 max_retries) ∧
        requestCount (fetch_data max_retries delay
            (.ok nextPage :: (fails ++ rest))).2 = max_retries + 1) := by
  constructor
  · intro max_retries delay fails rest hlen hall
    have h1 := fetch_data_allFail max_retries delay fails rest hlen hall
    refine ⟨h1, ?_⟩
    rw [h1]
    exact requestCount_backoffEvents Option.none delay max_retries 0
  · intro max_retries delay fails rest hmr hlen hall
    obtain ⟨m, rfl⟩ : ∃ m, max_retries = m + 1 :=
      ⟨max_retries - 1, by omega⟩
    have hc : checkStatus nextPage = some true := rfl
    have hp : parse_records nextPage = .ok [] := rfl
    have hhn : pyTruthy (jGetD nextPage "hasNextPage" (.bool false)) = true :=
      rfl
    have hcur : jGetD nextPage "nextCursor" .null = .str "c2" := rfl
    have hcp : cursorParam (JValue.str "c2") = some (.str "c2") := rfl
    have htail : retryLoop delay (cursorParam (JValue.str "c2")) 0 (m + 1)
        (fails ++ rest) =
        (.exhausted rest,
         backoffEvents (cursorParam (JValue.str "c2")) delay 0 (m + 1)) := by
      have h := retryLoop_exhausted delay (cursorParam (JValue.str "c2"))
        fails rest 0 hall
      rwa [hlen] at h
    have hcp0 : cursorParam JValue.null = Option.none := rfl
    have h1 : fetch_data (m + 1) delay (.ok nextPage :: (fails ++ rest)) =
        (.ret Option.none,
         .request Option.none :: .page [] true ::
           backoffEvents (some (.str "c2")) delay 0 (m + 1)) := by
      unfold fetch_data
      have hfuel : (Attempt.ok nextPage :: (fails ++ rest)).length + 1 =
          (fails.length + rest.length + 1) + 1 := by
        simp
      rw [hfuel]
      simp only [fetchLoop]
      have hr : retryLoop delay (cursorParam JValue.null) 0 (m + 1)
          (Attempt.ok nextPage :: (fails ++ rest)) =
          (.success nextPage (fails ++ rest), [.request Option.none]) := by
        simp only [retryLoop, hc, hcp0]
      rw [hr]
      simp only [hp, hhn, hcur, List.nil_append, List.append_nil, if_true,
        List.append_eq]
      rw [htail, hcp]
      simp
    refine ⟨h1, ?_⟩
    rw [h1]
    simp [requestCount, requestCount_backoffEvents]

/-- C3 witness: with `max_retries = 2`, a transport error followed by a
`PENDING` page exhausts the budget after exactly two requests; preceded by
a successful page, the failing page again gets two requests (three in
total). -/
theorem C3_retries_exhausted_witness :
    (fetch_data 2 5 [.err, .ok pendingPage] =
       (.ret Option.none, backoffEvents Option.none 5 0 2) ∧
     requestCount (fetch_data 2 5 [.err, .ok pendingPage]).2 = 2) ∧
    (fetch_data 2 5 [.ok nextPage, .err, .ok pendingPage] =
       (.ret Option.none,
        .request Option.none :: .page [] true ::
          backoffEvents (some (.str "c2")) 5 0 2) ∧
     requestCount (fetch_data 2 5 [.ok nextPage, .err, .ok pendingPage]).2 =
       3) :=
  ⟨C3_retries_exhausted.1 2 5 [.err, .ok pendingPage] [] rfl
     (by intro a ha; simp at ha; rcases ha with rfl | rfl <;> rfl),
   C3_retries_exhausted.2 2 5 [.err, .ok pendingPage] [] (by omega) rfl
     (by intro a ha; simp at ha; rcases ha with rfl | rfl <;> rfl)⟩

/-- C10 (implicit): the backoff sleep also happens after the final failed
attempt (the `time.sleep` is inside the loop body, before the `for/else`
returns), so a fully failing page incurs exactly `max_retries` sleeps
totalling `delay * (2 ^ max_retries - 1)` seconds. -/
theorem C10_sleep_after_final_attempt :
    ∀ (max_retries delay : Nat) (fails rest : List Attempt),
      fails.length = max_retries →
      (∀ a ∈ fails, isRetryable a = true) →
      fetch_data max_retries delay (fails ++ rest) =
        (.ret Option.none, backoffEvents Option.none delay 0 max_retries) ∧
      sleepCount (fetch_data max_retries delay (fails ++ rest)).2 =
        max_retries ∧
      sleepTotal (fetch_data max_retries delay (fails ++ rest)).2 =
        delay * (2 ^ max_retries - 1) := by
  intro max_retries delay fails rest hlen hall
  have h1 := fetch_data_allFail max_retries delay fails rest hlen hall
  refine ⟨h1, ?_, ?_⟩
  · rw [h1]
    exact sleepCount_backoffEvents Option.none delay max_retries 0
  · rw [h1]
    have h2 := sleepTotal_backoffEvents Option.none delay max_retries 0
    simpa using h2

/-- C10 witness: two transport errors with `max_retries = 2`, `delay = 5`:
two sleeps totalling `5 + 10 = 5 * (2 ^ 2 - 1)` seconds. -/
theorem C10_sleep_after_final_attempt_witness :
    fetch_data 2 5 [.err, .err] =
      (.ret Option.none, backoffEvents Option.none 5 0 2) ∧
    sleepCount (fetch_data 2 5 [.err, .err]).2 = 2 ∧
    sleepTotal (fetch_data 2 5 [.err, .err]).2 = 5 * (2 ^ 2 - 1) :=
  C10_sleep_after_final_attempt 2 5 [.err, .err] []
    rfl (by intro a ha; simp at ha; rcases ha with rfl | rfl <;> rfl)

theorem fetchLoop_leading_backoff (max_retries delay fuel : Nat)
    (cursor : JValue) (acc : List Record) (fails rest : List Attempt)
    (hle : fails.length ≤ max_retries)
    (hall : ∀ a ∈ fails, isRetryable a = true) :
    ∃ tr, (fetchLoop max_retries delay (fuel + 1) cursor acc
        (fails ++ rest)).2 =
      backoffEvents (cursorParam cursor) delay 0 fails.length ++ tr := by
  obtain ⟨m, hm⟩ := Nat.le.dest hle
  subst hm
  simp only [fetchLoop]
  rw [retryLoop_backoff delay (cursorParam cursor) fails m 0 rest hall]
  rcases hq : retryLoop delay (cursorParam cursor) (0 + fails.length) m rest
    with ⟨o, tl⟩
  cases o with
  | starved => exact ⟨tl, by simp⟩
  | raised rs2 => exact ⟨tl, by simp⟩
  | exhausted rs2 => exact ⟨tl, by simp⟩
  | success j rest2 =>
    cases hp : parse_records j with
    | error e => exact ⟨tl, by simp [hp]⟩
    | ok recs =>
      by_cases hh : pyTruthy (jGetD j "hasNextPage" (.bool false)) = true
      · exact ⟨tl ++ .page recs true ::
          (fetchLoop (fails.length + m) delay fuel (jGetD j "nextCursor" .null)
            (acc ++ recs) rest2).2, by simp [hp, hh]⟩
      · exact ⟨tl ++ [.page recs false],
          by simp [hp, hh]⟩

/-- C4: before each retry, failed attempt `i` (0-based, transport error or
`status ≠ SUCCESS` alike — `fails` mixes both freely) sleeps exactly
`delay * 2 ^ i` seconds, then the next request is issued
(`backoffEvents` interleaves them in exactly that order); the wait times
are monotone, strictly so when `delay > 0`.  The first conjunct states this
for any page of the pagination loop (arbitrary cursor and accumulator), the
second for `fetch_data` itself. -/
theorem C4_exponential_backoff :
    (∀ (max_retries delay fuel : Nat) (cursor : JValue) (acc : List Record)
        (fails rest : List Attempt),
        fails.length ≤ max_retries →
        (∀ a ∈ fails, isRetryable a = true) →
        ∃ tr, (fetchLoop max_retries delay (fuel + 1) cursor acc
            (fails ++ rest)).2 =
          backoffEvents (cursorParam cursor) delay 0 fails.length ++ tr) ∧
    (∀ (max_retries delay : Nat) (fails rest : List Attempt),
        fails.length ≤ max_retries →
        (∀ a ∈ fails, isRetryable a = true) →
        ∃ tr, (fetch_data max_retries delay (fails ++ rest)).2 =
          backoffEvents Option.none delay 0 fails.length ++ tr) ∧
    (∀ (delay i j : Nat), i ≤ j → delay * 2 ^ i ≤ delay * 2 ^ j) ∧
    (∀ (delay i j : Nat), 0 < delay → i < j →
        delay * 2 ^ i < delay * 2 ^ j) := by
  refine ⟨fetchLoop_leading_backoff, ?_, ?_, ?_⟩
  · intro max_retries delay fails rest hle hall
    obtain ⟨tr, htr⟩ := fetchLoop_leading_backoff max_retries delay
      (fails.length + rest.length) .null [] fails rest hle hall
    refine ⟨tr, ?_⟩
    unfold fetch_data
    have hfuel : (fails ++ rest).length + 1 =
        fails.length + rest.length + 1 := by
      simp
    rw [hfuel]
    simpa [cursorParam, pyTruthy] using htr
  · intro delay i j hij
    exact Nat.mul_le_mul_left delay (Nat.pow_le_pow_right (by omega) hij)
  · intro delay i j hd hij
    have hp : (2 : Nat) ^ i < 2 ^ j :=
      Nat.pow_lt_pow_right (by omega) hij
    exact mul_lt_mul_of_pos_left hp hd

/-- C4 witness: one transport error with `max_retries = 3`, `delay = 5`:
the trace starts with a request and a 5-second sleep; `5 * 2 ^ 0 ≤ 5 * 2 ^ 1`
and strictly so. -/
theorem C4_exponential_backoff_witness :
    (∃ tr, (fetch_data 3 5 ([.err] ++ [.ok finalPage])).2 =
        backoffEvents Option.none 5 0 1 ++ tr) ∧
    5 * 2 ^ 0 ≤ 5 * 2 ^ 1 ∧ 5 * 2 ^ 0 < 5 * 2 ^ 1 :=
  ⟨C4_exponential_backoff.2.1 3 5 [.err] [.ok finalPage] (by simp)
     (by intro a ha; simp at ha; subst ha; rfl),
   C4_exponential_backoff.2.2.1 5 0 1 (by omega),
   C4_exponential_backoff.2.2.2 5 0 1 (by omega) (by omega)⟩

theorem pagesOf_append (xs ys : List Event) :
    pagesOf (xs ++ ys) = pagesOf xs ++ pagesOf ys := by
  induction xs with
  | nil => rfl
  | cons e es ih => cases e <;> simp [pagesOf, ih]

theorem pagesOf_retryLoop (delay : Nat) (cp : Option JValue) :
    ∀ (n att : Nat) (rs : List Attempt),
      pagesOf (retryLoop delay cp att n rs).2 = [] := by
  intro n
  induction n with
  | zero => intro att rs; rfl
  | succ n ih =>
    intro att rs
    cases rs with
    | nil => rfl
    | cons a rs =>
      cases a with
      | err => simp [retryLoop, pagesOf, ih (att + 1) rs]
      | ok j =>
        cases hc : checkStatus j with
        | none => simp [retryLoop, hc, pagesOf]
        | some b =>
          cases b with
          | true => simp [retryLoop, hc, pagesOf]
          | false => simp [retryLoop, hc, pagesOf, ih (att + 1) rs]

theorem fetchLoop_complete (max_retries delay : Nat) :
    ∀ (fuel : Nat) (cursor : JValue) (acc : List Record) (rs : List Attempt)
      (l : List Record) (tr : List Event),
      fetchLoop max_retries delay fuel cursor acc rs = (.ret (some l), tr) →
      l = acc ++ pageRecords (pagesOf tr) ∧
      ∃ ps last, pagesOf tr = ps ++ [(last, false)] ∧
        ∀ q ∈ ps, q.2 = true := by
  intro fuel
  induction fuel with
  | zero =>
    intro cursor acc rs l tr h
    simp [fetchLoop] at h
  | succ fuel ih =>
    intro cursor acc rs l tr h
    simp only [fetchLoop] at h
    have hevs : pagesOf (retryLoop delay (cursorParam cursor) 0
        max_retries rs).2 = [] :=
      pagesOf_retryLoop delay (cursorParam cursor) max_retries 0 rs
    rcases hq : retryLoop delay (cursorParam cursor) 0 max_retries rs
      with ⟨o, evs⟩
    rw [hq] at h hevs
    cases o with
    | starved => simp at h
    | raised rs2 => simp at h
    | exhausted rs2 => simp at h
    | success j rest =>
      cases hp : parse_records j with
      | error e => simp [hp] at h
      | ok recs =>
        cases hh : pyTruthy (jGetD j "hasNextPage" (.bool false)) with
        | true =>
          rcases hf : fetchLoop max_retries delay fuel
            (jGetD j "nextCursor" JValue.null) (acc ++ recs) rest
            with ⟨res2, tr2⟩
          simp only [hp, hh, hf, if_true] at h
          rw [Prod.mk.injEq] at h
          obtain ⟨h1, h2⟩ := h
          rw [h1] at hf
          obtain ⟨ha, ps, last, hEq, hAll⟩ :=
            ih (jGetD j "nextCursor" JValue.null) (acc ++ recs) rest l tr2 hf
          subst h2
          constructor
          · rw [pagesOf_append, hevs]
            simp only [List.nil_append, pagesOf, pageRecords]
            rw [ha]
            simp [List.append_assoc]
          · refine ⟨(recs, true) :: ps, last, ?_, ?_⟩
            · rw [pagesOf_append, hevs]
              simp [pagesOf, hEq]
            · intro q hq2
              rcases List.mem_cons.mp hq2 with rfl | hmem
              · rfl
              · exact hAll q hmem
        | false =>
          simp only [hp, hh, Bool.false_eq_true, if_false] at h
          rw [Prod.mk.injEq] at h
          obtain ⟨h1, h2⟩ := h
          have hl : l = acc ++ recs := by
            cases h1
            rfl
          subst h2
          constructor
          · rw [pagesOf_append, hevs]
            simp [pagesOf, pageRecords, hl]
          · refine ⟨[], recs, ?_, ?_⟩
            · rw [pagesOf_append, hevs]
              simp [pagesOf]
            · intro q hq2
              cases hq2

/-- C1: whenever `fetch_data` returns a list (rather than `None` or an
exception), that list is exactly the concatenation, in page order, of the
records of every page it fetched and parsed, and the last such page
signalled no further pages — so a normally returned result is never a
partial prefix left over from a mid-pagination failure; retry exhaustion
and parse failure return `None` instead. -/
theorem C1_complete_or_none :
    ∀ (max_retries delay : Nat) (responses : List Attempt)
      (l : List Record) (tr : List Event),
      fetch_data max_retries delay responses = (.ret (some l), tr) →
      l = pageRecords (pagesOf tr) ∧
      ∃ ps last, pagesOf tr = ps ++ [(last, false)] ∧
        ∀ q ∈ ps, q.2 = true := by
  intro max_retries delay responses l tr h
  have h2 := fetchLoop_complete max_retries delay (responses.length + 1)
    .null [] responses l tr h
  simpa using h2

/-- C1 witness: a two-page run — an empty first page with `hasNextPage =
true`, then the worked-example page — returns exactly the records of both
pages in order, the last page signalling termination. -/
theorem C1_complete_or_none_witness :
    [exampleRecord] = pageRecords (pagesOf
        [.request Option.none, .page [] true,
         .request (some (.str "c2")), .page [exampleRecord] false]) ∧
    ∃ ps last, pagesOf
        [Event.request Option.none, Event.page [] true,
         Event.request (some (JValue.str "c2")),
         Event.page [exampleRecord] false] = ps ++ [(last, false)] ∧
      ∀ q ∈ ps, q.2 = true :=
  C1_complete_or_none 3 5 [.ok nextPage, .ok examplePage] [exampleRecord]
    [.request Option.none, .page [] true,
     .request (some (.str "c2")), .page [exampleRecord] false] rfl

/-- C6: if the first response has `status = SUCCESS` and a `hasNextPage`
field equal to `false`, and its payload flattens to `records`, then
`fetch_data` returns exactly `records` and the transport is invoked exactly
once. -/
theorem C6_single_page :
    ∀ (max_retries delay : Nat) (j : JValue) (records : List Record)
      (rest : List Attempt),
      1 ≤ max_retries →
      checkStatus j = some true →
      parse_records j = .ok records →
      jGetD j "hasNextPage" (.bool false) = .bool false →
      fetch_data max_retries delay (.ok j :: rest) =
        (.ret (some records),
         [.request Option.none, .page records false]) ∧
      requestCount (fetch_data max_retries delay (.ok j :: rest)).2 = 1 := by
  intro max_retries delay j records rest hmr hst hp hnext
  obtain ⟨m, rfl⟩ : ∃ m, max_retries = m + 1 := ⟨max_retries - 1, by omega⟩
  have hcp0 : cursorParam JValue.null = Option.none := rfl
  have h1 : fetch_data (m + 1) delay (.ok j :: rest) =
      (.ret (some records), [.request Option.none, .page records false]) := by
    unfold fetch_data
    have hfuel : (Attempt.ok j :: rest).length + 1 = (rest.length + 1) + 1 :=
      by simp
    rw [hfuel]
    simp only [fetchLoop]
    have hr : retryLoop delay (cursorParam JValue.null) 0 (m + 1)
        (.ok j :: rest) = (.success j rest, [.request Option.none]) := by
      simp only [retryLoop, hst, hcp0]
    rw [hr]
    simp [hp, hnext, pyTruthy]
  refine ⟨h1, ?_⟩
  rw [h1]
  rfl

/-- C6 witness: the worked-example page alone, with the default
`max_retries = 3` and `delay = 5`. -/
theorem C6_single_page_witness :
    fetch_data 3 5 [.ok examplePage] =
      (.ret (some [exampleRecord]),
       [.request Option.none, .page [exampleRecord] false]) ∧
    requestCount (fetch_data 3 5 [.ok examplePage]).2 = 1 :=
  C6_single_page 3 5 examplePage [exampleRecord] [] (by omega) rfl rfl rfl

theorem retryLoop_head (delay : Nat) (cp : Option JValue) (att m : Nat)
    (a : Attempt) (rs : List Attempt) :
    ∃ o tr, retryLoop delay cp att (m + 1) (a :: rs) =
      (o, .request cp :: tr) := by
  cases a with
  | err =>
    exact ⟨(retryLoop delay cp (att + 1) m rs).1,
      .sleep (delay * 2 ^ att) :: (retryLoop delay cp (att + 1) m rs).2, rfl⟩
  | ok j =>
    cases hc : checkStatus j with
    | none => exact ⟨.raised rs, [], by simp [retryLoop, hc]⟩
    | some b =>
      cases b with
      | true => exact ⟨.success j rs, [], by simp [retryLoop, hc]⟩
      | false =>
        exact ⟨(retryLoop delay cp (att + 1) m rs).1,
          .sleep (delay * 2 ^ att) :: (retryLoop delay cp (att + 1) m rs).2,
          by simp [retryLoop, hc]⟩

theorem fetchLoop_head (m delay fuel : Nat) (cursor : JValue)
    (acc : List Record) (a : Attempt) (rs : List Attempt) :
    ∃ res tr, fetchLoop (m + 1) delay (fuel + 1) cursor acc (a :: rs) =
      (res, .request (cursorParam cursor) :: tr) := by
  obtain ⟨o, tr0, hr⟩ := retryLoop_head delay (cursorParam cursor) 0 m a rs
  simp only [fetchLoop]
  rw [hr]
  cases o with
  | starved => exact ⟨.starved, tr0, rfl⟩
  | raised rs2 => exact ⟨.raised, tr0, rfl⟩
  | exhausted rs2 => exact ⟨.ret Option.none, tr0, rfl⟩
  | success j rest =>
    cases hp : parse_records j with
    | error e => exact ⟨.ret Option.none, tr0, by simp [hp]⟩
    | ok recs =>
      cases hh : pyTruthy (jGetD j "hasNextPage" (.bool false)) with
      | true =>
        exact ⟨(fetchLoop (m + 1) delay fuel (jGetD j "nextCursor" .null)
            (acc ++ recs) rest).1,
          tr0 ++ .page recs true ::
            (fetchLoop (m + 1) delay fuel (jGetD j "nextCursor" .null)
              (acc ++ recs) rest).2,
          by simp [hp, hh]⟩
      | false =>
        exact ⟨.ret (some (acc ++ recs)), tr0 ++ [.page recs false],
          by simp [hp, hh]⟩

theorem fetchLoop_page_step (m delay fuel : Nat) (cursor : JValue)
    (acc : List Record) (j : JValue) (rs : List Attempt)
    (records : List Record)
    (hst : checkStatus j = some true)
    (hp : parse_records j = .ok records)
    (hhn : pyTruthy (jGetD j "hasNextPage" (.bool false)) = true) :
    fetchLoop (m + 1) delay (fuel + 1) cursor acc (.ok j :: rs) =
      ((fetchLoop (m + 1) delay fuel (jGetD j "nextCursor" .null)
          (acc ++ records) rs).1,
       .request (cursorParam cursor) :: .page records true ::
         (fetchLoop (m + 1) delay fuel (jGetD j "nextCursor" .null)
           (acc ++ records) rs).2) := by
  simp only [fetchLoop]
  have hr : retryLoop delay (cursorParam cursor) 0 (m + 1) (.ok j :: rs) =
      (.success j rs, [.request (cursorParam cursor)]) := by
    simp only [retryLoop, hst]
  rw [hr]
  simp [hp, hhn]

/-- C2 counterexample: on a `SUCCESS` page with `hasNextPage = true` and no
`nextCursor` field, `fetch_data` does not fail — it issues a second request
(with no cursor parameter) and, when the server then ends pagination,
returns a normal result.  So the protocol violation is neither treated as a
fatal error nor stops the loop. -/
theorem C2_counterexample_silently_continues :
    fetch_data 3 5 [.ok noCursorPage, .ok finalPage] =
      (.ret (some []),
       [.request Option.none, .page [] true, .request Option.none,
        .page [] false]) ∧
    FetchResult.ret (some ([] : List Record)) ≠ FetchResult.ret Option.none ∧
    FetchResult.ret (some ([] : List Record)) ≠ FetchResult.raised := by
  refine ⟨rfl, ?_, ?_⟩ <;> simp

/-- C2 (amended): a page with truthy `hasNextPage` and missing/null
`next_cursor` is NOT treated as an error: `cursor` becomes `None`, the
`if cursor` guard skips the parameter, and the loop silently continues,
issuing the next request with no cursor (re-fetching from the start of the
range), whatever that request returns. -/
theorem C2_amended_silent_continue :
    ∀ (m delay : Nat) (a : Attempt) (rest : List Attempt),
      ∃ res tr,
        fetch_data (m + 1) delay (.ok noCursorPage :: a :: rest) =
          (res, .request Option.none :: .page [] true ::
            .request Option.none :: tr) := by
  intro m delay a rest
  have hc : checkStatus noCursorPage = some true := rfl
  have hcp0 : cursorParam JValue.null = Option.none := rfl
  have hp : parse_records noCursorPage = .ok [] := rfl
  have hhn : pyTruthy (jGetD noCursorPage "hasNextPage" (.bool false)) =
      true := rfl
  have hcur : jGetD noCursorPage "nextCursor" JValue.null = JValue.null := rfl
  obtain ⟨res, tr, hstep⟩ :=
    fetchLoop_head m delay (rest.length + 1) JValue.null [] a rest
  refine ⟨res, tr, ?_⟩
  unfold fetch_data
  have hfuel : (Attempt.ok noCursorPage :: a :: rest).length + 1 =
      (((rest.length + 1) + 1) + 1) := by simp
  rw [hfuel]
  rw [fetchLoop_page_step m delay ((rest.length + 1) + 1) JValue.null []
    noCursorPage (a :: rest) [] hc hp hhn]
  rw [hcur]
  simp only [List.nil_append]
  rw [hstep]
  simp [hcp0]

/-- C2 witness for the amended claim: after the cursorless continuation, a
transport error page follows and the loop proceeds normally. -/
theorem C2_amended_silent_continue_witness :
    ∃ res tr,
      fetch_data 3 5 [.ok noCursorPage, .err, .ok finalPage] =
        (res, .request Option.none :: .page [] true ::
          .request Option.none :: tr) :=
  C2_amended_silent_continue 2 5 .err [.ok finalPage]

/-- C7: any `data_format` other than `"df"` or `"json"` makes
`load_to_bigquery` raise `ValueError` (line 120) with no client call made
(empty action list), after logging the start line and the failure line. -/
theorem C7_unsupported_format :
    ∀ (client : ClientSpec) (data : PyData)
      (dataset_id table_name formatted_date data_format : String),
      data_format ≠ "df" → data_format ≠ "json" →
      load_to_bigquery client data dataset_id table_name formatted_date
          data_format =
        (.error (.valueError ("Unsupported data_format: " ++ data_format)),
         [],
         [.info (startMsg (tableId dataset_id table_name formatted_date)),
          .error (failMsg (tableId dataset_id table_name formatted_date)
            (.valueError ("Unsupported data_format: " ++ data_format)))]) := by
  intro client data dataset_id table_name formatted_date data_format h1 h2
  simp [load_to_bigquery, submitPhase, h1, h2]

/-- C7 witness: the `"csv"` tag of the repository's own unit test. -/
theorem C7_unsupported_format_witness :
    load_to_bigquery quotaClient (.jsonRows []) "test_dataset" "test_table"
        "20250701" "csv" =
      (.error (.valueError ("Unsupported data_format: " ++ "csv")),
       [],
       [.info (startMsg (tableId "test_dataset" "test_table" "20250701")),
        .error (failMsg (tableId "test_dataset" "test_table" "20250701")
          (.valueError ("Unsupported data_format: " ++ "csv")))]) :=
  C7_unsupported_format quotaClient (.jsonRows []) "test_dataset"
    "test_table" "20250701" "csv" (by decide) (by decide)

theorem submitCount_append (xs ys : List BQAction) :
    submitCount (xs ++ ys) = submitCount xs + submitCount ys := by
  induction xs with
  | nil => simp [submitCount]
  | cons a xs ih => cases a <;> simp [submitCount, ih] <;> omega

theorem submitPhase_count (client : ClientSpec) (data : PyData)
    (table_id data_format : String) :
    submitCount (submitPhase client data table_id data_format).2 ≤ 1 := by
  unfold submitPhase
  by_cases h1 : data_format = "df"
  · simp only [h1, if_pos rfl]
    cases hcols : pyColumns data with
    | error e => simp [submitCount]
    | ok cols => cases client.submitDf <;> simp [submitCount]
  · rw [if_neg h1]
    by_cases h2 : data_format = "json"
    · simp only [h2, if_pos rfl]
      cases client.submitJson <;> simp [submitCount]
    · rw [if_neg h2]
      simp [submitCount]

/-- C9: whenever `load_to_bigquery` propagates an exception, the log is the
start line followed by exactly one error line naming the target table id
and the exception, the exception reaches the caller unmodified (it is the
`e` of the hypothesis itself), and at most one load submission was made —
the loader never retries. -/
theorem C9_failure_logged_propagated :
    ∀ (client : ClientSpec) (data : PyData)
      (dataset_id table_name formatted_date data_format : String)
      (e : PyExc),
      (load_to_bigquery client data dataset_id table_name formatted_date
          data_format).1 = .error e →
      (load_to_bigquery client data dataset_id table_name formatted_date
          data_format).2.2 =
        [.info (startMsg (tableId dataset_id table_name formatted_date)),
         .error (failMsg (tableId dataset_id table_name formatted_date) e)] ∧
      submitCount (load_to_bigquery client data dataset_id table_name
          formatted_date data_format).2.1 ≤ 1 := by
  intro client data dataset_id table_name formatted_date data_format e h
  rcases hs : submitPhase client data
    (tableId dataset_id table_name formatted_date) data_format
    with ⟨sub, acts⟩
  have hcount : submitCount acts ≤ 1 := by
    have hc := submitPhase_count client data
      (tableId dataset_id table_name formatted_date) data_format
    rw [hs] at hc
    exact hc
  cases sub with
  | error e2 =>
    have hload : load_to_bigquery client data dataset_id table_name
        formatted_date data_format =
        (.error e2, acts,
         [.info (startMsg (tableId dataset_id table_name formatted_date)),
          .error (failMsg (tableId dataset_id table_name formatted_date)
            e2)]) := by
      simp only [load_to_bigquery]
      rw [hs]
    rw [hload] at h
    simp only [Except.error.injEq] at h
    subst h
    rw [hload]
    exact ⟨rfl, hcount⟩
  | ok job =>
    cases hj : job.outcome with
    | error e2 =>
      have hload : load_to_bigquery client data dataset_id table_name
          formatted_date data_format =
          (.error (.clientError e2), acts ++ [.waitResult job.job_id],
           [.info (startMsg (tableId dataset_id table_name formatted_date)),
            .error (failMsg (tableId dataset_id table_name formatted_date)
              (.clientError e2))]) := by
        simp only [load_to_bigquery]
        rw [hs]
        simp only [hj]
      rw [hload] at h
      simp only [Except.error.injEq] at h
      subst h
      rw [hload]
      refine ⟨rfl, ?_⟩
      rw [submitCount_append]
      simp [submitCount]
      omega
    | ok rows =>
      have hload1 : (load_to_bigquery client data dataset_id table_name
          formatted_date data_format).1 = .ok (LoadResult.mk rows) := by
        simp only [load_to_bigquery]
        rw [hs]
        simp [hj]
      rw [hload1] at h
      simp at h

/-- C9 witness: a JSON load whose submission fails with a quota error is
logged with the table id and the same error is propagated, with exactly
one submission attempt. -/
theorem C9_failure_logged_propagated_witness :
    (load_to_bigquery quotaClient (.jsonRows []) "d" "t" "x" "json").2.2 =
      [.info (startMsg (tableId "d" "t" "x")),
       .error (failMsg (tableId "d" "t" "x") (.clientError "quota"))] ∧
    submitCount (load_to_bigquery quotaClient (.jsonRows []) "d" "t" "x"
        "json").2.1 ≤ 1 :=
  C9_failure_logged_propagated quotaClient (.jsonRows []) "d" "t" "x"
    "json" (.clientError "quota") rfl
